import Mathlib

/-!
Verification of the ld2410-ble client library (src/ld2410_ble/const.py,
models.py, ld2410_ble.py) against its natural-language specification.

Bytes are modelled as natural numbers below 256 in lists (Python bytes
objects). Python exceptions are modelled explicitly with the PyError type:
a function that can raise returns an Except value, and the stateful
notification handler returns the error (if any) together with the client
state as mutated up to the raise point, matching Python semantics where
assignments performed before an exception persist.
-/

/-- Python exception kinds raised by the code paths modelled here. -/
inductive PyError where
  | typeError
  | unboundLocalError
  | attributeError
  | valueError
deriving DecidableEq

/-- models.py lines 6-19: the LD2410BLEState dataclass with its declared
field defaults. In the Python source the two gate defaults are mutable
lists, which the dataclass machinery rejects at class-definition time; the
declared default values themselves are embedded here unchanged. -/
structure LD2410BLEState where
  is_moving : Bool := false
  is_static : Bool := false
  moving_target_distance : Nat := 0
  moving_target_energy : Nat := 0
  static_target_distance : Nat := 0
  static_target_energy : Nat := 0
  detection_distance : Nat := 0
  max_motion_gates : Nat := 8
  max_static_gates : Nat := 8
  motion_energy_gates : List Nat := [0, 0, 0, 0, 0, 0, 0, 0, 0]
  static_energy_gates : List Nat := [0, 0, 0, 0, 0, 0, 0, 0, 0]
deriving DecidableEq

/-- const.py line 4. -/
def CMD_PREAMBLE : List Nat := [0xfd, 0xfc, 0xfb, 0xfa]

/-- const.py line 5. -/
def CMD_POSTAMBLE : List Nat := [0x04, 0x03, 0x02, 0x01]

/-- const.py line 6. -/
def CMD_BT_PASS_PRE : List Nat := CMD_PREAMBLE ++ [0x08, 0x00, 0xa8, 0x00]

/-- const.py line 7: the ASCII bytes of HiLink. -/
def CMD_BT_PASS_DEFAULT : List Nat := [0x48, 0x69, 0x4c, 0x69, 0x6e, 0x6b]

/-- const.py line 8. -/
def CMD_BT_PASS_POST : List Nat := CMD_POSTAMBLE

/-- const.py line 9. -/
def CMD_ENABLE_CONFIG : List Nat :=
  CMD_PREAMBLE ++ [0x04, 0x00, 0xff, 0x00, 0x01, 0x00] ++ CMD_POSTAMBLE

/-- const.py line 10: the byte b in the source literal is ASCII 0x62. -/
def CMD_ENABLE_ENGINEERING_MODE : List Nat :=
  [0x02, 0x00, 0x62, 0x00] ++ CMD_POSTAMBLE

/-- const.py line 11. -/
def CMD_DISABLE_CONFIG : List Nat :=
  CMD_PREAMBLE ++ [0x02, 0x00, 0xfe] ++ CMD_POSTAMBLE

/-- const.py line 13. -/
def MOVING_TARGET : Nat := 1

/-- const.py line 14. -/
def STATIC_TARGET : Nat := 2

/-- ld2410_ble.py line 261: int.from_bytes(state, byteorder=little). -/
def intify : List Nat → Nat
  | [] => 0
  | b :: rest => b + 256 * intify rest

/-- Semantics of the regex wildcard dot over a bytes subject: the pattern
in const.py is compiled without the DOTALL flag, so the dot matches every
byte except the newline byte 0x0A. -/
def dotMatches (b : Nat) : Bool := b != 10

/-- const.py lines 31-33 and 53-55: the literal bytes that close the frame
pattern (frame_tail, frame_check, frame_end). -/
def frameTailBytes : List Nat := [0x55, 0x00, 0xf8, 0xf7, 0xf6, 0xf5]

/-- Match a literal byte sequence at the front of the input, returning the
remainder on success. -/
def dropLit : List Nat → List Nat → Option (List Nat)
  | [], l => some l
  | _ :: _, [] => none
  | p :: ps, b :: bs => if p == b then dropLit ps bs else none

/-- One alternative of the lazy engineering-data group of frame_regex
(const.py line 30): the group consumes exactly k wildcard bytes and must
be followed by the literal tail bytes. -/
def tryEngAt (k : Nat) (l : List Nat) : Option (Option (List Nat) × List Nat) :=
  let eng := l.take k
  if eng.length == k && eng.all dotMatches then
    match dropLit frameTailBytes (l.drop k) with
    | some rest => some (some eng, rest)
    | none => none
  else none

/-- Backtracking order of the lazy one-or-more quantifier inside the
optional engineering-data group: shortest capture first, k = 1 upward. -/
def engLoop : Nat → Nat → List Nat → Option (Option (List Nat) × List Nat)
  | 0, _, _ => none
  | fuel + 1, k, l =>
    match tryEngAt k l with
    | some r => some r
    | none => engLoop fuel (k + 1) l

/-- Matching of the variable part of frame_regex after the ten fixed-width
fields: the optional group is greedy (a present engineering capture is
preferred), its inner quantifier is lazy, and if every capture length
fails the group is skipped and the literal tail must follow directly. -/
def matchAfterFields (l : List Nat) : Option (Option (List Nat) × List Nat) :=
  match engLoop l.length 1 l with
  | some r => some r
  | none =>
    match dropLit frameTailBytes l with
    | some rest => some (none, rest)
    | none => none

/-- The named captures of frame_regex (const.py lines 20-56), stored as
the raw captured bytes exactly as a Python match object yields them. -/
structure FrameGroups where
  length : List Nat
  engineering : List Nat
  target_state : List Nat
  moving_target_distance : List Nat
  moving_target_energy : List Nat
  static_target_distance : List Nat
  static_target_energy : List Nat
  detection_distance : List Nat
  engineering_data : Option (List Nat)
deriving DecidableEq

/-- Attempt to match frame_regex (const.py lines 41-56) at the start of
the input: the four start literals, two wildcard length bytes, the mode
alternation 0x01 or 0x02, the head literal 0xAA, the target-state
alternation 0x00 to 0x03, the seven wildcard field bytes, then the
variable engineering part and closing literals. Returns the captures and
the bytes after the match end. -/
def frameRegexMatchAt : List Nat → Option (FrameGroups × List Nat)
  | a0 :: a1 :: a2 :: a3 :: l1 :: l2 :: em :: hb :: ts :: m1 :: m2 :: me ::
      s1 :: s2 :: se :: d1 :: d2 :: rest =>
    if a0 == 0xf4 && a1 == 0xf3 && a2 == 0xf2 && a3 == 0xf1
        && dotMatches l1 && dotMatches l2
        && (em == 0x01 || em == 0x02)
        && hb == 0xaa
        && (ts == 0x00 || ts == 0x01 || ts == 0x02 || ts == 0x03)
        && dotMatches m1 && dotMatches m2 && dotMatches me
        && dotMatches s1 && dotMatches s2 && dotMatches se
        && dotMatches d1 && dotMatches d2 then
      match matchAfterFields rest with
      | some (eng, r) =>
        some ({ length := [l1, l2], engineering := [em], target_state := [ts],
                moving_target_distance := [m1, m2], moving_target_energy := [me],
                static_target_distance := [s1, s2], static_target_energy := [se],
                detection_distance := [d1, d2], engineering_data := eng }, r)
      | none => none
    else none
  | _ => none

/-- re.search of frame_regex over the buffer (ld2410_ble.py line 268):
the leftmost starting position that admits a match wins; the returned
remainder is the buffer content after the match end. -/
def frameRegexSearch : List Nat → Option (FrameGroups × List Nat)
  | [] => none
  | b :: bs =>
    match frameRegexMatchAt (b :: bs) with
    | some r => some r
    | none => frameRegexSearch bs

/-- re.match of engineering_frame_regex (const.py lines 58-64) against the
captured engineering-data bytes: one wildcard byte for each maximum gate
count, two fixed nine-byte wildcard runs, and a trailing greedy wildcard
run that never causes the match to fail. Returns the first four captures. -/
def engineeringFrameRegexMatch (ed : List Nat) : Option (Nat × Nat × List Nat × List Nat) :=
  match ed with
  | a :: b :: rest =>
    if dotMatches a && dotMatches b
        && (rest.take 9).length == 9 && (rest.take 9).all dotMatches
        && ((rest.drop 9).take 9).length == 9 && ((rest.drop 9).take 9).all dotMatches then
      some (a, b, rest.take 9, (rest.drop 9).take 9)
    else none
  | _ => none

/-- ld2410_ble.py lines 275-276 and 278-279: the target-state byte group
is converted with intify and tested against the MOVING_TARGET and
STATIC_TARGET masks, Python bool of a nonzero int being true. -/
def targetFlags (target_state : List Nat) : Bool × Bool :=
  (decide (Nat.land (intify target_state) MOVING_TARGET ≠ 0),
   decide (Nat.land (intify target_state) STATIC_TARGET ≠ 0))

/-- Modelled from the spec: section 4.4 notification decoding steps 2-5,
the intended construction of a SensorState from the frame captures. The
source at ld2410_ble.py lines 277-310 is the transcription defect the
spec flags in section 9 (the dict is applied with call syntax and intify
is called through self with a surplus argument), so the decoded-value
flow is taken from the spec here: bitmask target flags, little-endian
field integers, engineering sub-frame fields when the engineering capture
is non-empty, and the model defaults when it is absent. -/
def decodeState (g : FrameGroups) : Except PyError LD2410BLEState :=
  let base : LD2410BLEState :=
    { is_moving := (targetFlags g.target_state).1
      is_static := (targetFlags g.target_state).2
      moving_target_distance := intify g.moving_target_distance
      moving_target_energy := intify g.moving_target_energy
      static_target_distance := intify g.static_target_distance
      static_target_energy := intify g.static_target_energy
      detection_distance := intify g.detection_distance }
  match g.engineering_data with
  | none => .ok base
  | some ed =>
    if ed.isEmpty then .ok base
    else
      match engineeringFrameRegexMatch ed with
      | none => .error .attributeError
      | some (mm, ms, mg, sg) =>
        .ok { base with
              max_motion_gates := intify [mm]
              max_static_gates := intify [ms]
              motion_energy_gates := mg
              static_energy_gates := sg }

/-- The part of the client state touched by the notification handler: the
reassembly buffer and the current SensorState snapshot. -/
structure NotifClient where
  buf : List Nat
  state : LD2410BLEState
deriving DecidableEq

/-- ld2410_ble.py lines 263-320, embedded faithfully including its
defects: the data is appended to the buffer and frame_regex is searched.
On a match the buffer is trimmed past the match end (line 270) and then
line 274 raises TypeError, because intify (line 261, a one-parameter
function) is invoked through self, which passes the instance as a surplus
argument; the later lines would also apply the sensor_dict dict with call
syntax. Without a match control falls through to the state rebuild at
line 298, which is indented outside the match branch and reads the local
sensor_dict that was never assigned, raising UnboundLocalError. In both
cases no state is stored and no callback fires; the buffer mutation that
already happened persists, as in Python. -/
def notificationHandler (c : NotifClient) (data : List Nat) : Option PyError × NotifClient :=
  let buf1 := c.buf ++ data
  match frameRegexSearch buf1 with
  | some (_g, rest) => (some .typeError, { c with buf := rest })
  | none => (some .unboundLocalError, { c with buf := buf1 })

/-- Modelled from the spec: section 4.4 notification decoding steps 1-6,
the intended handler behavior the spec assumes in place of the
transcription defect of ld2410_ble.py lines 274-310 (section 9 open
question). On a match the buffer keeps only the bytes after the match
end, the decoded state replaces the current one atomically, and every
registered callback receives the new state; the returned list holds the
states dispatched to callbacks. Without a match the handler returns with
the longer buffer and dispatches nothing. -/
def notificationHandlerIntended (c : NotifClient) (data : List Nat) :
    Except PyError (NotifClient × List LD2410BLEState) :=
  let buf1 := c.buf ++ data
  match frameRegexSearch buf1 with
  | none => .ok ({ c with buf := buf1 }, [])
  | some (g, rest) =>
    match decodeState g with
    | .error e => .error e
    | .ok st => .ok ({ buf := rest, state := st }, [st])

/-- Modelled from the spec: the section 6 notification frame layout, used
to build conforming test inputs. A two-byte little-endian field. -/
def le16 (n : Nat) : List Nat := [n % 256, n / 256 % 256]

/-- Modelled from the spec: the section 6 notification frame layout in
order - start marker, declared length, mode byte, head marker 0xAA,
target-state byte, three little-endian distances with the two energy
bytes between them, the engineering region, tail marker 0x55, check byte
0x00 and end marker. -/
def specFrame (len2 : List Nat) (mode ts mtd mte std ste dd : Nat)
    (eng : List Nat) : List Nat :=
  [0xf4, 0xf3, 0xf2, 0xf1] ++ len2 ++ [mode, 0xaa, ts] ++ le16 mtd ++ [mte]
    ++ le16 std ++ [ste] ++ le16 dd ++ eng ++ [0x55, 0x00, 0xf8, 0xf7, 0xf6, 0xf5]

/-- ld2410_ble.py lines 197-206: register_callback appends the callback
to the ordered collection. Callbacks are identified by a token standing
for Python object identity. -/
def register_callback (cbs : List Nat) (cb : Nat) : List Nat := cbs ++ [cb]

/-- Python list.remove as used by the unregistration closure at
ld2410_ble.py lines 202-203: removes the first occurrence, raising
ValueError when the element is absent. -/
def list_remove (x : Nat) : List Nat → Except PyError (List Nat)
  | [] => .error .valueError
  | y :: ys =>
    if y = x then .ok ys
    else
      match list_remove x ys with
      | .ok r => .ok (y :: r)
      | .error e => .error e

/-- ld2410_ble.py lines 202-203: the unregistration handle returned by
register_callback removes the callback from the collection with
list.remove. -/
def unregister_callback (cb : Nat) (cbs : List Nat) : Except PyError (List Nat) :=
  list_remove cb cbs

/-- Observable transport-level actions of the client, in order. -/
inductive Event where
  | write (b : List Nat)
  | sleepMs (n : Nat)
  | stopNotify
  | transportDisconnect
deriving DecidableEq

/-- The connection-lifecycle part of the client state. The characteristic
reference fields are initialized through the characteristic resolution
step, which is repository code missing from src/ and is modelled from the
spec (sections 3 and 4.4): resolved references are held while connected
and cleared on disconnect. -/
structure ConnClient where
  client : Option Bool
  readChar : Option Unit
  writeChar : Option Unit
  expectedDisconnect : Bool
  disconnectTimer : Option Unit
deriving DecidableEq

/-- ld2410_ble.py lines 322-329: cancel any pending job, clear the
expected-disconnect flag and schedule a fresh inactivity job, so at most
one job is ever pending. -/
def resetDisconnectTimer (c : ConnClient) : ConnClient :=
  { c with expectedDisconnect := false, disconnectTimer := some () }

/-- ld2410_ble.py lines 358-369: under the connect lock, set the
expected-disconnect flag, clear the connection handle and both
characteristic references, and if the saved handle was a live connection
stop notifications and close it. The pending inactivity job is not
touched by this sequence. -/
def executeDisconnect (c : ConnClient) : ConnClient × List Event :=
  let cl := c.client
  let c2 : ConnClient :=
    { c with
      expectedDisconnect := true
      client := none
      readChar := none
      writeChar := none }
  match cl with
  | some true => (c2, [Event.stopNotify, Event.transportDisconnect])
  | _ => (c2, [])

/-- ld2410_ble.py lines 187-190: stop only delegates to the disconnect
sequence. -/
def stop (c : ConnClient) : ConnClient × List Event := executeDisconnect c

/-- ld2410_ble.py lines 344-356: when the scheduled inactivity job fires,
the timer field is cleared and the disconnect sequence runs as a task.
Firing is only possible while a job is pending. -/
def timerFire (c : ConnClient) : Option (ConnClient × List Event) :=
  match c.disconnectTimer with
  | none => none
  | some _ => some (executeDisconnect { c with disconnectTimer := none })

/-- The module-level names defined by const.py, in source order. -/
def constExports : List String :=
  ["CHARACTERISTIC_NOTIFY", "CHARACTERISTIC_WRITE", "CMD_PREAMBLE",
   "CMD_POSTAMBLE", "CMD_BT_PASS_PRE", "CMD_BT_PASS_DEFAULT",
   "CMD_BT_PASS_POST", "CMD_ENABLE_CONFIG", "CMD_ENABLE_ENGINEERING_MODE",
   "CMD_DISABLE_CONFIG", "MOVING_TARGET", "STATIC_TARGET", "MAX_GATES",
   "MAX_SENSE_VAL", "MIN_SENSE_VAL", "frame_start", "frame_length",
   "frame_engineering_mode", "frame_head", "frame_target_state",
   "frame_moving_target_distance", "frame_moving_target_energy",
   "frame_static_target_distance", "frame_static_target_energy",
   "frame_detection_distance", "frame_engineering_data", "frame_tail",
   "frame_check", "frame_end", "frame_maximum_motion_gates",
   "frame_maximum_static_gates", "frame_motion_energy_gates",
   "frame_static_energy_gates", "frame_additional_information",
   "frame_regex", "engineering_frame_regex"]

/-- The names ld2410_ble.py lines 25-36 import from the const module. -/
def ldConstImports : List String :=
  ["CHARACTERISTIC_NOTIFY", "CHARACTERISTIC_WRITE", "CMD_BT_PASS",
   "CMD_ENABLE_CONFIG", "CMD_ENABLE_ENGINEERING_MODE", "CMD_DISABLE_CONFIG",
   "MOVING_TARGET", "STATIC_TARGET", "frame_regex", "engineering_frame_regex"]

/-- Modelled from the spec: the BLE pairing-passcode command of the
section 6 command table, PRE then 08 00 A8 00 then the six HiLink bytes
then POST. The name CMD_BT_PASS is imported by ld2410_ble.py but missing
from const.py, which only defines its three fragments; this definition
concatenates those fragments as the spec table prescribes. -/
def CMD_BT_PASS : List Nat := CMD_BT_PASS_PRE ++ CMD_BT_PASS_DEFAULT ++ CMD_BT_PASS_POST

/-- ld2410_ble.py lines 245-252: the configuration handshake issued on a
fresh connection before subscribing, one write per command with a
100-millisecond sleep after each, in source order. -/
def configureEvents : List Event :=
  [Event.write CMD_BT_PASS, Event.sleepMs 100,
   Event.write CMD_ENABLE_CONFIG, Event.sleepMs 100,
   Event.write CMD_ENABLE_ENGINEERING_MODE, Event.sleepMs 100,
   Event.write CMD_DISABLE_CONFIG, Event.sleepMs 100]

/-- Modelled from the spec: section 6 command table, pairing passcode. -/
def spec_cmd_pairing : List Nat :=
  [0xfd, 0xfc, 0xfb, 0xfa, 0x08, 0x00, 0xa8, 0x00,
   0x48, 0x69, 0x4c, 0x69, 0x6e, 0x6b, 0x04, 0x03, 0x02, 0x01]

/-- Modelled from the spec: section 6 command table, enable configuration
mode. -/
def spec_cmd_enable_config : List Nat :=
  [0xfd, 0xfc, 0xfb, 0xfa, 0x04, 0x00, 0xff, 0x00, 0x01, 0x00,
   0x04, 0x03, 0x02, 0x01]

/-- Modelled from the spec: section 6 command table, enable engineering
mode, the one command without the shared preamble. -/
def spec_cmd_enable_engineering : List Nat :=
  [0x02, 0x00, 0x62, 0x00, 0x04, 0x03, 0x02, 0x01]

/-- Modelled from the spec: section 6 command table, disable configuration
mode. -/
def spec_cmd_disable_config : List Nat :=
  [0xfd, 0xfc, 0xfb, 0xfa, 0x02, 0x00, 0xfe, 0x04, 0x03, 0x02, 0x01]

/-- ld2410_ble.py line 54. -/
def DEFAULT_ATTEMPTS : Nat := 3

/-- ld2410_ble.py line 41, converted to milliseconds. -/
def BLEAK_BACKOFF_TIME_MS : Nat := 250

/-- The two transient transport failure classes handled by
_send_command_locked: the DBus-layer error and the generic link error. -/
inductive BleErr where
  | dbus
  | bleak
deriving DecidableEq

/-- ld2410_ble.py lines 371-394, one attempt of the locked send: on
success no action; on a DBus-layer failure sleep 250 milliseconds, force
the full disconnect and re-raise; on a generic link failure force the
full disconnect and re-raise without the sleep. -/
def sendCommandLockedOnce (outcome : Option BleErr) : List Event × Option BleErr :=
  match outcome with
  | none => ([], none)
  | some BleErr.dbus =>
    ([Event.sleepMs BLEAK_BACKOFF_TIME_MS, Event.transportDisconnect], some BleErr.dbus)
  | some BleErr.bleak => ([Event.transportDisconnect], some BleErr.bleak)

/-- Modelled from the spec: the external bounded-retry wrapper (section 6
boundary dependency) applied to _send_command_locked at ld2410_ble.py
line 371. The outcome function gives the classified result of each
attempt; both modelled failure classes are in its retried set. Returns
the number of attempts made, the emitted events and the final error. -/
def retryLoop (o : Nat → Option BleErr) : Nat → Nat → Nat × List Event × Option BleErr
  | _, 0 => (0, [], none)
  | i, fuel + 1 =>
    match sendCommandLockedOnce (o i) with
    | (evs, none) => (1, evs, none)
    | (evs, some e) =>
      match fuel with
      | 0 => (1, evs, some e)
      | f2 + 1 =>
        let r := retryLoop o (i + 1) (f2 + 1)
        (r.1 + 1, evs ++ r.2.1, r.2.2)

/-- The locked send wrapped with DEFAULT_ATTEMPTS total attempts. -/
def sendCommandRetried (o : Nat → Option BleErr) : Nat × List Event × Option BleErr :=
  retryLoop o 0 DEFAULT_ATTEMPTS

/-- The retry wrapper never makes more attempts than its bound. -/
theorem retryLoop_attempts_le (o : Nat → Option BleErr) :
    ∀ fuel i, (retryLoop o i fuel).1 ≤ fuel := by
  intro fuel
  induction fuel with
  | zero => intro i; simp [retryLoop]
  | succ f ih =>
    intro i
    cases h : o i with
    | none =>
      have e1 : (retryLoop o i (f + 1)).1 = 1 := by
        unfold retryLoop
        rw [h]
        rfl
      rw [e1]
      exact Nat.succ_le_succ (Nat.zero_le f)
    | some e =>
      cases f with
      | zero =>
        have e1 : (retryLoop o i (0 + 1)).1 = 1 := by
          unfold retryLoop
          rw [h]
          cases e <;> rfl
        rw [e1]
      | succ f2 =>
        have e1 : (retryLoop o i (f2 + 1 + 1)).1 = (retryLoop o (i + 1) (f2 + 1)).1 + 1 := by
          conv_lhs => unfold retryLoop
          rw [h]
          cases e <;> rfl
        rw [e1]
        exact Nat.succ_le_succ (ih (i + 1))

/-- C1: a buffer holding exactly one section 6 frame with target-state
0x03, moving distance 120, moving energy 80, static distance 200, static
energy 60, detection distance 250 and an empty engineering region. The
handler as written in src trims the buffer and then raises TypeError, so
no state is ever stored; under the intended decoding the spec assumes
(section 9), the frame yields exactly the claimed SensorState, with the
default engineering fields, and that state becomes the client's current
state while one callback dispatch carries it. -/
theorem c1_round_trip_decode :
    notificationHandler { buf := [], state := {} }
        (specFrame [13, 0] 1 3 120 80 200 60 250 [])
      = (some PyError.typeError, { buf := [], state := {} })
    ∧ notificationHandlerIntended { buf := [], state := {} }
        (specFrame [13, 0] 1 3 120 80 200 60 250 [])
      = Except.ok
          ({ buf := [],
             state := { is_moving := true, is_static := true,
                        moving_target_distance := 120, moving_target_energy := 80,
                        static_target_distance := 200, static_target_energy := 60,
                        detection_distance := 250, max_motion_gates := 8,
                        max_static_gates := 8,
                        motion_energy_gates := [0, 0, 0, 0, 0, 0, 0, 0, 0],
                        static_energy_gates := [0, 0, 0, 0, 0, 0, 0, 0, 0] } },
           [{ is_moving := true, is_static := true,
              moving_target_distance := 120, moving_target_energy := 80,
              static_target_distance := 200, static_target_energy := 60,
              detection_distance := 250, max_motion_gates := 8,
              max_static_gates := 8,
              motion_energy_gates := [0, 0, 0, 0, 0, 0, 0, 0, 0],
              static_energy_gates := [0, 0, 0, 0, 0, 0, 0, 0, 0] }]) :=
  ⟨rfl, rfl⟩

/-- C2: on the unmatched notification 0x00 the handler as written in src
does not return silently: the state rebuild sits outside the match branch
and reads the never-assigned sensor_dict, raising UnboundLocalError. The
appended buffer is retained and the current state is untouched; under the
intended behavior the spec assumes, the handler returns with the longer
buffer and no callback fires. -/
theorem c2_no_match_raises :
    notificationHandler { buf := [], state := {} } [0]
      = (some PyError.unboundLocalError, { buf := [0], state := {} })
    ∧ notificationHandlerIntended { buf := [], state := {} } [0]
      = Except.ok ({ buf := [0], state := {} }, []) :=
  ⟨rfl, rfl⟩

/-- C3 counterexample: one callback is registered and its unregistration
handle invoked twice; the second invocation finds the collection empty
and list.remove raises ValueError, refuting the claimed no-op removal. -/
theorem c3_counterexample_double_unregister :
    unregister_callback 7 (register_callback [] 7) = Except.ok []
    ∧ unregister_callback 7 [] = Except.error PyError.valueError :=
  ⟨rfl, rfl⟩

/-- C3 amended: invoking the unregistration handle removes the first
occurrence of the callback when it is present, but when the callback is
absent (never registered, or already unregistered) list.remove raises
ValueError - it is not a no-op. -/
theorem c3_unregister_when_absent_raises (cb : Nat) (cbs : List Nat) :
    (cb ∉ cbs → unregister_callback cb cbs = Except.error PyError.valueError)
    ∧ (cb ∈ cbs → ∃ r, unregister_callback cb cbs = Except.ok r) := by
  induction cbs with
  | nil =>
    exact ⟨fun _ => rfl, fun h => absurd h (List.not_mem_nil cb)⟩
  | cons y ys ih =>
    constructor
    · intro h
      have hy : ¬ y = cb := fun e => h (e ▸ List.mem_cons_self y ys)
      have h2 : cb ∉ ys := fun m => h (List.mem_cons_of_mem y m)
      simp only [unregister_callback, list_remove, hy, if_false]
      have := ih.1 h2
      simp only [unregister_callback] at this
      rw [this]
    · intro h
      by_cases hy : y = cb
      · exact ⟨ys, by simp [unregister_callback, list_remove, hy]⟩
      · have hmem : cb ∈ ys := by
          rcases List.mem_cons.mp h with h1 | h1
          · exact absurd h1.symm hy
          · exact h1
        obtain ⟨r, hr⟩ := ih.2 hmem
        refine ⟨y :: r, ?_⟩
        simp only [unregister_callback, list_remove, hy, if_false]
        simp only [unregister_callback] at hr
        rw [hr]

/-- C3 witness: the amended statement applied to the concrete
double-unregister input. -/
theorem c3_unregister_when_absent_raises_witness :
    unregister_callback 5 [] = Except.error PyError.valueError :=
  (c3_unregister_when_absent_raises 5 []).1 (List.not_mem_nil 5)

/-- C4 counterexample: a connected client with a pending inactivity job.
After stop completes, the job is still scheduled - stop never touches the
timer field - and the timer path can still fire. -/
theorem c4_counterexample_timer_not_cancelled :
    ((stop { client := some true, readChar := some (), writeChar := some (),
             expectedDisconnect := false, disconnectTimer := some () }).1).disconnectTimer
      = some ()
    ∧ timerFire ((stop { client := some true, readChar := some (), writeChar := some (),
                         expectedDisconnect := false, disconnectTimer := some () }).1)
      = some ({ client := none, readChar := none, writeChar := none,
                expectedDisconnect := true, disconnectTimer := none }, []) :=
  ⟨rfl, rfl⟩

/-- C4 amended: stop does not cancel a pending inactivity-disconnect job.
After stop completes the previously scheduled job is still pending and
fires at expiry, re-running the disconnect sequence from the timer path;
that run performs no transport-level action because stop already cleared
the connection handle, so the only transport disconnect remains the one
stop itself performed. -/
theorem c4_stop_leaves_timer_pending (c : ConnClient) (h : c.disconnectTimer = some ()) :
    ((stop c).1).disconnectTimer = some ()
    ∧ timerFire ((stop c).1)
      = some ({ client := none, readChar := none, writeChar := none,
                expectedDisconnect := true, disconnectTimer := none }, []) := by
  obtain ⟨cl, rc, wc, ed, dt⟩ := c
  simp only at h
  subst h
  cases cl with
  | none => exact ⟨rfl, rfl⟩
  | some b => cases b <;> exact ⟨rfl, rfl⟩

/-- C4 witness: the amended statement applied to a concrete connected
client with a pending job. -/
theorem c4_stop_leaves_timer_pending_witness :
    ((stop { client := some true, readChar := some (), writeChar := some (),
             expectedDisconnect := false, disconnectTimer := some () }).1).disconnectTimer
      = some ()
    ∧ timerFire ((stop { client := some true, readChar := some (), writeChar := some (),
                         expectedDisconnect := false, disconnectTimer := some () }).1)
      = some ({ client := none, readChar := none, writeChar := none,
                expectedDisconnect := true, disconnectTimer := none }, []) :=
  c4_stop_leaves_timer_pending
    { client := some true, readChar := some (), writeChar := some (),
      expectedDisconnect := false, disconnectTimer := some () } rfl

/-- C5: the configuration handshake. The name CMD_BT_PASS that the client
module imports is absent from the const module exports, so in src that
very import fails and no write is ever issued; with the pairing command
completed from the spec table, the handshake issues exactly 4 writes in
the claimed order, each byte-identical to the section 6 literal and each
followed by a 100-millisecond pause. -/
theorem c5_handshake_commands :
    ("CMD_BT_PASS" ∈ ldConstImports ∧ "CMD_BT_PASS" ∉ constExports)
    ∧ configureEvents =
        [Event.write spec_cmd_pairing, Event.sleepMs 100,
         Event.write spec_cmd_enable_config, Event.sleepMs 100,
         Event.write spec_cmd_enable_engineering, Event.sleepMs 100,
         Event.write spec_cmd_disable_config, Event.sleepMs 100] := by
  refine ⟨⟨?_, ?_⟩, ?_⟩
  · decide
  · decide
  · rfl

/-- C6: the target-state byte decodes through the MOVING_TARGET and
STATIC_TARGET masks: values 0x00, 0x01, 0x02, 0x03 give the pairs
(false,false), (true,false), (false,true), (true,true), and on each of
the four byte values frame_regex admits, is_moving equals bit 0 (mask 1)
and is_static equals bit 1 (mask 2) of the byte. -/
theorem c6_target_state_bits :
    targetFlags [0x00] = (false, false)
    ∧ targetFlags [0x01] = (true, false)
    ∧ targetFlags [0x02] = (false, true)
    ∧ targetFlags [0x03] = (true, true)
    ∧ targetFlags [0x00] = (Nat.testBit 0x00 0, Nat.testBit 0x00 1)
    ∧ targetFlags [0x01] = (Nat.testBit 0x01 0, Nat.testBit 0x01 1)
    ∧ targetFlags [0x02] = (Nat.testBit 0x02 0, Nat.testBit 0x02 1)
    ∧ targetFlags [0x03] = (Nat.testBit 0x03 0, Nat.testBit 0x03 1) := by
  refine ⟨rfl, rfl, rfl, rfl, ?_, ?_, ?_, ?_⟩ <;> decide

/-- C7: a notification holding one complete valid frame followed by the
five extra bytes 1 2 3 4 5. The handler as written in src trims the
buffer exactly past the match end, keeping precisely those five bytes,
but then raises TypeError before any state is produced; under the
intended decoding one state is decoded and dispatched and the buffer
keeps exactly the five trailing bytes. -/
theorem c7_leftover_buffering :
    notificationHandler { buf := [], state := {} }
        (specFrame [13, 0] 1 3 120 80 200 60 250 [] ++ [1, 2, 3, 4, 5])
      = (some PyError.typeError, { buf := [1, 2, 3, 4, 5], state := {} })
    ∧ notificationHandlerIntended { buf := [], state := {} }
        (specFrame [13, 0] 1 3 120 80 200 60 250 [] ++ [1, 2, 3, 4, 5])
      = Except.ok
          ({ buf := [1, 2, 3, 4, 5],
             state := { is_moving := true, is_static := true,
                        moving_target_distance := 120, moving_target_energy := 80,
                        static_target_distance := 200, static_target_energy := 60,
                        detection_distance := 250, max_motion_gates := 8,
                        max_static_gates := 8,
                        motion_energy_gates := [0, 0, 0, 0, 0, 0, 0, 0, 0],
                        static_energy_gates := [0, 0, 0, 0, 0, 0, 0, 0, 0] } },
           [{ is_moving := true, is_static := true,
              moving_target_distance := 120, moving_target_energy := 80,
              static_target_distance := 200, static_target_energy := 60,
              detection_distance := 250, max_motion_gates := 8,
              max_static_gates := 8,
              motion_energy_gates := [0, 0, 0, 0, 0, 0, 0, 0, 0],
              static_energy_gates := [0, 0, 0, 0, 0, 0, 0, 0, 0] }]) :=
  ⟨rfl, rfl⟩

/-- C8: the retried locked send makes at most DEFAULT_ATTEMPTS = 3
attempts for every outcome sequence; when every attempt fails with the
DBus-layer error each attempt sleeps 250 milliseconds then forces the
full disconnect before re-raising, and after 3 attempts that failure
propagates; when every attempt fails with the generic link error each
attempt forces the disconnect without any sleep and the failure
propagates after 3 attempts; a DBus failure followed by generic failures
shows both per-class behaviors in one run; a first-attempt success makes
exactly one attempt with no recovery action. -/
theorem c8_bounded_retry :
    (∀ o : Nat → Option BleErr, (sendCommandRetried o).1 ≤ 3)
    ∧ sendCommandRetried (fun _ => some BleErr.dbus)
      = (3, [Event.sleepMs 250, Event.transportDisconnect,
             Event.sleepMs 250, Event.transportDisconnect,
             Event.sleepMs 250, Event.transportDisconnect], some BleErr.dbus)
    ∧ sendCommandRetried (fun _ => some BleErr.bleak)
      = (3, [Event.transportDisconnect, Event.transportDisconnect,
             Event.transportDisconnect], some BleErr.bleak)
    ∧ sendCommandRetried (fun i => if i = 0 then some BleErr.dbus else some BleErr.bleak)
      = (3, [Event.sleepMs 250, Event.transportDisconnect,
             Event.transportDisconnect, Event.transportDisconnect], some BleErr.bleak)
    ∧ sendCommandRetried (fun _ => none) = (1, [], none) :=
  ⟨fun o => retryLoop_attempts_le o 3 0, rfl, rfl, rfl, rfl⟩

/-- C8 witness: the attempt bound applied to the all-DBus-failure outcome
sequence. -/
theorem c8_bounded_retry_witness :
    (sendCommandRetried (fun _ => some BleErr.dbus)).1 ≤ 3 :=
  c8_bounded_retry.1 (fun _ => some BleErr.dbus)

/-- C9: the field defaults declared by the LD2410BLEState dataclass are
exactly the claimed ones - both flags false, all distances and energies
zero, both max gate counts 8 and both gate arrays nine zeros - and
equality of states is structural. In the Python source these defaults
never take effect: the dataclass machinery rejects the mutable list
defaults with ValueError at class-definition time, so construction never
succeeds. -/
theorem c9_default_state :
    ({} : LD2410BLEState)
      = { is_moving := false, is_static := false, moving_target_distance := 0,
          moving_target_energy := 0, static_target_distance := 0,
          static_target_energy := 0, detection_distance := 0,
          max_motion_gates := 8, max_static_gates := 8,
          motion_energy_gates := [0, 0, 0, 0, 0, 0, 0, 0, 0],
          static_energy_gates := [0, 0, 0, 0, 0, 0, 0, 0, 0] } :=
  rfl

/-- C10: a byte sequence that conforms to the section 6 frame layout -
correct start and end markers, length, mode, head, tail and check bytes,
moving distance 10 - contains the byte 0x0A in a wildcard field
position (index 9, the low moving-distance byte), and frame_regex never
matches it at any position, so searching the buffer finds nothing and no
SensorState is ever produced from it. -/
theorem c10_newline_byte_frame_never_matches :
    (specFrame [13, 0] 1 3 10 80 200 60 250 []).get? 9 = some 0x0a
    ∧ frameRegexSearch (specFrame [13, 0] 1 3 10 80 200 60 250 []) = none
    ∧ notificationHandlerIntended { buf := [], state := {} }
        (specFrame [13, 0] 1 3 10 80 200 60 250 [])
      = Except.ok ({ buf := specFrame [13, 0] 1 3 10 80 200 60 250 [], state := {} }, []) :=
  ⟨rfl, rfl, rfl⟩
